import Mathlib

/-!
Verification of the SageMaker Iris hyperparameter-tuning notebook
(`src/lab.ipynb`).  The notebook is a linear script: it discovers an S3
bucket, loads `iris.csv`, splits it into train/validation/test partitions
with two stratified `train_test_split` calls, writes and uploads the CSV
files, builds a tuning-job configuration, and submits it once through
`create_hyper_parameter_tuning_job`.

This file embeds each of those steps.  Pure cell-level values
(`tuning_job_config`, `training_job_definition`, the S3 key strings, the
column reordering passed to `to_csv`) are translated directly from the
notebook cells.  External library behaviour that the notebook delegates to
(`sklearn.model_selection.train_test_split` with `stratify=`, the boto3
calls) is not part of the repository; those pieces are modelled, with doc
comments saying so, and claims about them are settled against the model.
-/

/-! ## Stratified split (modelled sklearn `train_test_split`) -/

/-- Ceiling division on naturals: the least `k` with `a ≤ k * b` (for `b > 0`).
Used because sklearn computes the test-partition size as
`ceil(test_size * n_samples)`. -/
def natCeilDiv (a b : ℕ) : ℕ := (a + b - 1) / b

/-- Rows of the tabular dataset are identified by their index and carry the
value of the `Species` column; the four numeric feature columns play no role
in any claim about the split. -/
def RowT : Type := ℕ × String

instance : DecidableEq RowT := instDecidableEqProd

/-- Number of rows of `rows` whose `Species` label is `c`. -/
def countLabel (rows : List RowT) (c : String) : ℕ :=
  (rows.filter (fun r => r.2 = c)).length

/-- The distinct labels of a list, in order of first occurrence. -/
def firstOccs (l : List String) : List String :=
  l.foldl (fun acc x => if x ∈ acc then acc else acc ++ [x]) []

/-- Increment a per-label counter at label `c0`. -/
def bumpUsed (used : String → ℕ) (c0 : String) : String → ℕ :=
  fun l => if l = c0 then used l + 1 else used l

/-- One pass over the rows: a row with label `c` goes to the first partition
while fewer than `alloc c` rows of label `c` have been taken, and to the
second partition afterwards.  `trainGo` returns the first partition. -/
def trainGo (alloc : String → ℕ) : (String → ℕ) → List RowT → List RowT
  | _, [] => []
  | used, r :: rs =>
    if used r.2 < alloc r.2 then r :: trainGo alloc (bumpUsed used r.2) rs
    else trainGo alloc used rs

/-- Companion of `trainGo`: the second partition of the same pass. -/
def testGo (alloc : String → ℕ) : (String → ℕ) → List RowT → List RowT
  | _, [] => []
  | used, r :: rs =>
    if used r.2 < alloc r.2 then testGo alloc (bumpUsed used r.2) rs
    else r :: testGo alloc used rs

/-- Modelled from the spec: sklearn sizes the test partition as
`ceil(test_size * n)`; the fraction `test_size` is passed as `tsNum / tsDen`. -/
def ttsTestSize (n tsNum tsDen : ℕ) : ℕ := natCeilDiv (tsNum * n) tsDen

/-- Train-partition size: the remaining rows. -/
def ttsTrainSize (n tsNum tsDen : ℕ) : ℕ := n - ttsTestSize n tsNum tsDen

/-- The class labels present in the dataset, in order of first occurrence. -/
def ttsClasses (rows : List RowT) : List String := firstOccs (rows.map Prod.snd)

/-- Modelled from the spec: the proportional train-partition share of label
`c`, rounded down (`floor(count_c * n_train / n)`), as sklearn's stratified
splitter computes it. -/
def ttsBase (rows : List RowT) (tsNum tsDen : ℕ) : String → ℕ :=
  fun c => countLabel rows c * ttsTrainSize rows.length tsNum tsDen / rows.length

/-- Rows left unassigned after every label got its floored proportional
share. -/
def ttsDeficit (rows : List RowT) (tsNum tsDen : ℕ) : ℕ :=
  ttsTrainSize rows.length tsNum tsDen -
    ((ttsClasses rows).map (ttsBase rows tsNum tsDen)).sum

/-- Modelled from the spec: sklearn assigns the leftover rows to classes
drawn with the seeded RNG; the model rotates the class list by the seed and
gives the first `deficit` classes one extra row each. -/
def ttsExtras (rows : List RowT) (tsNum tsDen seed : ℕ) : List String :=
  ((ttsClasses rows).rotate (seed % (ttsClasses rows).length)).take
    (ttsDeficit rows tsNum tsDen)

/-- Per-label train-partition allocation: floored proportional share plus at
most one remainder row. -/
def ttsAlloc (rows : List RowT) (tsNum tsDen seed : ℕ) : String → ℕ :=
  fun c =>
    ttsBase rows tsNum tsDen c + (if c ∈ ttsExtras rows tsNum tsDen seed then 1 else 0)

/-- Modelled from the spec: `train_test_split(rows, test_size=tsNum/tsDen,
random_state=seed, stratify=labels)`.  Returns the (train, test) pair of
partitions; the split is per-label, deterministic in `seed`, and keeps rows
in their input order inside each partition. -/
def train_test_split (rows : List RowT) (tsNum tsDen seed : ℕ) :
    List RowT × List RowT :=
  (trainGo (ttsAlloc rows tsNum tsDen seed) (fun _ => 0) rows,
   testGo (ttsAlloc rows tsNum tsDen seed) (fun _ => 0) rows)

/-! ## The notebook's split step -/

/-- Both `train_test_split` calls in the notebook pass `random_state=1729`. -/
def scriptRandomState : Option ℕ := some 1729

/-- A `random_state` of `none` would leave the outcome to the ambient global
RNG state; a fixed value ignores it. -/
def effectiveSeed (ambient : ℕ) (rs : Option ℕ) : ℕ := rs.getD ambient

/-- The notebook's split step, run with ambient RNG state `ambient`: first
`test_size=0.3` over the whole dataset, then `test_size=1/3` over the
remainder; both with `random_state=1729`.  Returns
(train_data, validation_data, test_data). -/
def scriptSplitRun (ambient : ℕ) (rows : List RowT) :
    List RowT × List RowT × List RowT :=
  let p1 := train_test_split rows 3 10 (effectiveSeed ambient scriptRandomState)
  let p2 := train_test_split p1.2 1 3 (effectiveSeed ambient scriptRandomState)
  (p1.1, p2.1, p2.2)

/-- The notebook's split step (the ambient RNG state is irrelevant because
`random_state` is fixed). -/
def scriptSplit (rows : List RowT) : List RowT × List RowT × List RowT :=
  scriptSplitRun 0 rows

/-- Modelled from the spec: `iris.csv` is not in the repository; the spec
describes it as 150 labeled rows, 50 per species. -/
def irisRows : List RowT :=
  (List.range 150).map
    (fun i =>
      (i, if i < 50 then "setosa" else if i < 100 then "versicolor" else "virginica"))

/-- A 12-row dataset (8 rows of species "a", 4 of species "b") on which the
proportional shares of the split are not integers. -/
def unevenRows : List RowT :=
  (List.range 12).map (fun i => (i, if i < 8 then "a" else "b"))

/-- The partition `part` reproduces the per-label proportions of `rows`
exactly: `count_part(c) / |part| = count_rows(c) / |rows|`, stated by
cross-multiplication. -/
def propsPreserved (rows part : List RowT) : Prop :=
  ∀ c ∈ rows.map Prod.snd,
    countLabel part c * rows.length = countLabel rows c * part.length

/-- The partition `part` realises the per-label allocation `alloc` computed
from `rows`: every label present receives its allocated count (capped by how
many rows of that label exist). -/
def stratCounts (rows part : List RowT) (alloc : String → ℕ) : Prop :=
  ∀ c ∈ rows.map Prod.snd,
    countLabel part c = min (alloc c) (countLabel rows c)

/-! ## Bucket discovery and S3 URIs -/

/-- `ps.isPrefixOf cs` over raw character lists (kept first-order so concrete
instances evaluate). -/
def startsWithList : List Char → List Char → Bool
  | [], _ => true
  | _ :: _, [] => false
  | p :: ps, c :: cs => p == c && startsWithList ps cs

/-- The notebook's bucket filter: the bucket name starts with
`lab-notebook-`. -/
def isLabBucket (b : String) : Bool :=
  startsWithList "lab-notebook-".toList b.toList

/-- The notebook's bucket selection: `next((name for name in buckets if
name.startswith("lab-notebook-")), None)` over the names returned by
`list_buckets`. -/
def bucket (buckets : List String) : Option String :=
  buckets.find? isLabBucket

/-- Python's `str.format` renders `None` as the text `None`. -/
def strFormatArg : Option String → String
  | some s => s
  | none => "None"

/-- `train_s3_key = "{}/train".format(prefix)` with `prefix = "iris"`. -/
def train_s3_key : String := "iris" ++ "/train"

/-- `validation_s3_key = "{}/validation".format(prefix)`. -/
def validation_s3_key : String := "iris" ++ "/validation"

/-- `s3_input_train = "s3://{}/{}".format(bucket, train_s3_key)`. -/
def s3_input_train (buckets : List String) : String :=
  "s3://" ++ strFormatArg (bucket buckets) ++ "/" ++ train_s3_key

/-- `s3_input_validation = "s3://{}/{}".format(bucket, validation_s3_key)`. -/
def s3_input_validation (buckets : List String) : String :=
  "s3://" ++ strFormatArg (bucket buckets) ++ "/" ++ validation_s3_key

/-- `"s3://{}/{}output".format(bucket, prefix)` (note: no slash before
`output` in the notebook's format string). -/
def s3_output_path (buckets : List String) : String :=
  "s3://" ++ strFormatArg (bucket buckets) ++ "/" ++ "iris" ++ "output"

/-! ## CSV writes -/

/-- The column reordering applied before each `to_csv` call:
`["Species"] + [col for col in columns if col != "Species"]`. -/
def reorderColumns (cols : List String) : List String :=
  "Species" :: cols.filter (fun c => c ≠ "Species")

/-- One `to_csv` call: target path, column order, and the `header=False`,
`index=False` keyword arguments. -/
structure ToCsvCall where
  path : String
  columns : List String
  header : Bool
  index : Bool
deriving DecidableEq

/-- `train_data[["Species"] + ...].to_csv("train.csv", index=False,
header=False)`. -/
def train_to_csv (cols : List String) : ToCsvCall :=
  ⟨"train.csv", reorderColumns cols, false, false⟩

/-- The `validation.csv` write. -/
def validation_to_csv (cols : List String) : ToCsvCall :=
  ⟨"validation.csv", reorderColumns cols, false, false⟩

/-- The `test.csv` write. -/
def test_to_csv (cols : List String) : ToCsvCall :=
  ⟨"test.csv", reorderColumns cols, false, false⟩

/-! ## The tuning-job configuration -/

/-- One entry of `ParameterRanges`: the notebook gives `MinValue` and
`MaxValue` as decimal strings, exactly as the SageMaker API expects. -/
structure RangeSpec where
  Name : String
  MinValue : String
  MaxValue : String
deriving DecidableEq

/-- The `ParameterRanges` object. -/
structure ParamRanges where
  ContinuousParameterRanges : List RangeSpec
  IntegerParameterRanges : List RangeSpec
deriving DecidableEq

/-- The `ResourceLimits` object. -/
structure ResLimits where
  MaxNumberOfTrainingJobs : ℕ
  MaxParallelTrainingJobs : ℕ
deriving DecidableEq

/-- The `HyperParameterTuningJobObjective` object. -/
structure TuningObjectiveT where
  MetricName : String
  «Type» : String
deriving DecidableEq

/-- Shape of the `tuning_job_config` dictionary. -/
structure TuningJobConfigT where
  ParameterRanges : ParamRanges
  ResourceLimits : ResLimits
  Strategy : String
  HyperParameterTuningJobObjective : TuningObjectiveT
  RandomSeed : ℕ
deriving DecidableEq

/-- The `tuning_job_config` dictionary, field for field from the notebook. -/
def tuning_job_config : TuningJobConfigT :=
  { ParameterRanges :=
      { ContinuousParameterRanges :=
          [ ⟨"eta", "0.1", "0.5"⟩,
            ⟨"min_child_weight", "0", "120"⟩,
            ⟨"subsample", "0.5", "1"⟩,
            ⟨"colsample_bytree", "0.5", "1"⟩,
            ⟨"gamma", "0", "5"⟩ ],
        IntegerParameterRanges := [⟨"max_depth", "1", "10"⟩] },
    ResourceLimits :=
      { MaxNumberOfTrainingJobs := 9, MaxParallelTrainingJobs := 3 },
    Strategy := "Bayesian",
    HyperParameterTuningJobObjective :=
      { MetricName := "validation:mlogloss", «Type» := "Minimize" },
    RandomSeed := 123 }

/-! Decimal-string comparison, to state `MinValue <= MaxValue` about the
string-valued range bounds. -/

/-- Digits accumulated into a natural number; `none` on a non-digit. -/
def decDigitsGo : ℕ → List Char → Option ℕ
  | acc, [] => some acc
  | acc, c :: cs =>
    if c.isDigit then decDigitsGo (10 * acc + (c.toNat - 48)) cs else none

/-- A non-empty all-digit character list as a natural number. -/
def decDigits (cs : List Char) : Option ℕ :=
  if cs = [] then none else decDigitsGo 0 cs

/-- Split a character list at the first dot. -/
def splitDot : List Char → List Char × Option (List Char)
  | [] => ([], none)
  | c :: cs =>
    if c = '.' then ([], some cs)
    else ((splitDot cs).1.cons c, (splitDot cs).2)

/-- A decimal string as (mantissa, number of fraction digits), so that
`"0.5"` becomes `(5, 1)` and `"120"` becomes `(120, 0)`. -/
def parseDecimal (s : String) : Option (ℕ × ℕ) :=
  match splitDot s.toList with
  | (w, none) => (decDigits w).map (fun m => (m, 0))
  | (w, some f) =>
    match decDigits w, decDigits f with
    | some a, some b => some (a * 10 ^ f.length + b, f.length)
    | _, _ => none

/-- Both bounds of the range parse as decimals and `MinValue <= MaxValue`
(compared by cross-multiplying the fractional scales). -/
def rangeOrdered (r : RangeSpec) : Bool :=
  match parseDecimal r.MinValue, parseDecimal r.MaxValue with
  | some mv, some xv => Nat.ble (mv.1 * 10 ^ xv.2) (xv.1 * 10 ^ mv.2)
  | _, _ => false

/-! ## The training-job definition -/

/-- The `AlgorithmSpecification` object. -/
structure AlgoSpecT where
  TrainingImage : String
  TrainingInputMode : String
deriving DecidableEq

/-- The `S3DataSource` object. -/
structure S3DataSourceT where
  S3DataDistributionType : String
  S3DataType : String
  S3Uri : String
deriving DecidableEq

/-- The `DataSource` object. -/
structure DataSourceT where
  S3DataSource : S3DataSourceT
deriving DecidableEq

/-- One element of `InputDataConfig`. -/
structure ChannelT where
  ChannelName : String
  CompressionType : String
  ContentType : String
  DataSource : DataSourceT
deriving DecidableEq

/-- The `OutputDataConfig` object. -/
structure OutputDataConfigT where
  S3OutputPath : String
deriving DecidableEq

/-- The `ResourceConfig` object. -/
structure ResourceConfigT where
  InstanceCount : ℕ
  InstanceType : String
  VolumeSizeInGB : ℕ
deriving DecidableEq

/-- The `StoppingCondition` object. -/
structure StoppingConditionT where
  MaxRuntimeInSeconds : ℕ
deriving DecidableEq

/-- Shape of the `training_job_definition` dictionary. -/
structure TrainingJobDefT where
  AlgorithmSpecification : AlgoSpecT
  InputDataConfig : List ChannelT
  OutputDataConfig : OutputDataConfigT
  ResourceConfig : ResourceConfigT
  RoleArn : String
  StaticHyperParameters : List (String × String)
  StoppingCondition : StoppingConditionT
deriving DecidableEq

/-- The `training_job_definition` dictionary, parameterised by the values the
notebook obtains at run time (`training_image`, `role`, and the bucket list
behind the S3 URIs). -/
def training_job_definition (training_image role : String)
    (buckets : List String) : TrainingJobDefT :=
  { AlgorithmSpecification :=
      { TrainingImage := training_image, TrainingInputMode := "File" },
    InputDataConfig :=
      [ { ChannelName := "train", CompressionType := "None",
          ContentType := "csv",
          DataSource :=
            { S3DataSource :=
                { S3DataDistributionType := "FullyReplicated",
                  S3DataType := "S3Prefix", S3Uri := s3_input_train buckets } } },
        { ChannelName := "validation", CompressionType := "None",
          ContentType := "csv",
          DataSource :=
            { S3DataSource :=
                { S3DataDistributionType := "FullyReplicated",
                  S3DataType := "S3Prefix",
                  S3Uri := s3_input_validation buckets } } } ],
    OutputDataConfig := { S3OutputPath := s3_output_path buckets },
    ResourceConfig :=
      { InstanceCount := 1, InstanceType := "ml.m5.large", VolumeSizeInGB := 5 },
    RoleArn := role,
    StaticHyperParameters :=
      [ ("objective", "multi:softmax"), ("num_class", "3"),
        ("eval_metric", "mlogloss"), ("num_round", "100") ],
    StoppingCondition := { MaxRuntimeInSeconds := 300 } }

/-- `tuning_job_name = "iris-training-job"`. -/
def tuning_job_name : String := "iris-training-job"

/-- The keyword arguments of the `create_hyper_parameter_tuning_job` call. -/
structure CreateJobArgs where
  HyperParameterTuningJobName : String
  HyperParameterTuningJobConfig : TuningJobConfigT
  TrainingJobDefinition : TrainingJobDefT
deriving DecidableEq

/-- The argument record of the notebook's single
`create_hyper_parameter_tuning_job` call. -/
def createJobCall (training_image role : String) (buckets : List String) :
    CreateJobArgs :=
  { HyperParameterTuningJobName := tuning_job_name,
    HyperParameterTuningJobConfig := tuning_job_config,
    TrainingJobDefinition := training_job_definition training_image role buckets }

/-! ## The script as a linear sequence of steps -/

/-- The observable operations of the notebook, in cell order. -/
inductive ScriptStep where
  | pipInstall
  | importModules
  | getExecutionRole
  | listBuckets
  | readCsv
  | trainTestSplitStep
  | writeCsv (path : String)
  | retrieveImage
  | uploadFile (path : String)
  | defineTuningJobConfig
  | defineTrainingJobDefinition
  | createTuningJob
deriving DecidableEq, BEq

/-- The notebook's cells, flattened into the sequence of operations they
perform, in execution order. -/
def scriptSteps : List ScriptStep :=
  [ ScriptStep.pipInstall, ScriptStep.importModules,
    ScriptStep.getExecutionRole, ScriptStep.listBuckets, ScriptStep.readCsv,
    ScriptStep.trainTestSplitStep, ScriptStep.trainTestSplitStep,
    ScriptStep.writeCsv "train.csv", ScriptStep.writeCsv "validation.csv",
    ScriptStep.writeCsv "test.csv",
    ScriptStep.retrieveImage,
    ScriptStep.uploadFile "train.csv", ScriptStep.uploadFile "validation.csv",
    ScriptStep.defineTuningJobConfig,
    ScriptStep.retrieveImage, ScriptStep.defineTrainingJobDefinition,
    ScriptStep.createTuningJob ]

/-! ## Error propagation -/

/-- Outcomes of the notebook's fallible external calls: each field is the
result the underlying library or network call would produce (`Except.error`
standing for a raised exception). -/
structure ScriptEnv where
  get_execution_role : Except String String
  list_buckets : Except String (List String)
  read_csv : Except String (List RowT)
  split_step : Except String Unit
  image_uris_retrieve : Except String String
  upload_train : Except String Unit
  upload_validation : Except String Unit
  create_hyper_parameter_tuning_job : Except String Unit

/-- The notebook, cell after cell, as a chain of `Except.bind`s: no operation
is wrapped in a handler, and a success ends in the
`create_hyper_parameter_tuning_job` call whose argument record is returned. -/
def runScript (env : ScriptEnv) : Except String CreateJobArgs :=
  env.get_execution_role.bind (fun role =>
  env.list_buckets.bind (fun buckets =>
  env.read_csv.bind (fun _ =>
  env.split_step.bind (fun _ =>
  env.image_uris_retrieve.bind (fun training_image =>
  env.upload_train.bind (fun _ =>
  env.upload_validation.bind (fun _ =>
  env.create_hyper_parameter_tuning_job.bind (fun _ =>
  Except.ok (createJobCall training_image role buckets)))))))))

/-- The call succeeded (returned a value rather than raising). -/
def isOk {α : Type} (x : Except String α) : Prop := ∃ a, x = Except.ok a

instance (rows part : List RowT) : Decidable (propsPreserved rows part) := by
  unfold propsPreserved; infer_instance

/-- An environment in which every external call of the notebook succeeds. -/
def envOkBase : ScriptEnv :=
  { get_execution_role := Except.ok "arn:aws:iam::0:role/lab",
    list_buckets := Except.ok ["lab-notebook-1"],
    read_csv := Except.ok unevenRows,
    split_step := Except.ok (),
    image_uris_retrieve := Except.ok "xgboost-image",
    upload_train := Except.ok (),
    upload_validation := Except.ok (),
    create_hyper_parameter_tuning_job := Except.ok () }

/-- `envOkBase` with the first `upload_file` call raising. -/
def envUploadErr : ScriptEnv :=
  { envOkBase with upload_train := Except.error "AccessDenied" }

/-! ## Helper lemmas -/

theorem countLabel_nil (c : String) : countLabel [] c = 0 := rfl

theorem countLabel_cons (r : RowT) (rs : List RowT) (c : String) :
    countLabel (r :: rs) c = (if r.2 = c then 1 else 0) + countLabel rs c := by
  by_cases h : r.2 = c <;> simp [countLabel, List.filter_cons, h] <;> omega

theorem trainGo_testGo_perm (alloc : String → ℕ) (used : String → ℕ)
    (rows : List RowT) :
    (trainGo alloc used rows ++ testGo alloc used rows).Perm rows := by
  induction rows generalizing used with
  | nil => simp [trainGo, testGo]
  | cons r rs ih =>
    by_cases h : used r.2 < alloc r.2
    · simp only [trainGo, testGo, if_pos h]
      exact (ih (bumpUsed used r.2)).cons r
    · simp only [trainGo, testGo, if_neg h]
      exact List.perm_middle.trans ((ih used).cons r)

theorem trainGo_count (alloc : String → ℕ) (used : String → ℕ)
    (rows : List RowT) (c : String) :
    countLabel (trainGo alloc used rows) c =
      min (alloc c - used c) (countLabel rows c) := by
  induction rows generalizing used with
  | nil => simp [trainGo, countLabel]
  | cons r rs ih =>
    by_cases hc : r.2 = c
    · subst hc
      by_cases h : used r.2 < alloc r.2
      · simp [trainGo, if_pos h, countLabel_cons, ih, bumpUsed]
        omega
      · simp [trainGo, if_neg h, countLabel_cons, ih]
        omega
    · have hc' : ¬ (c = r.2) := fun hh => hc hh.symm
      by_cases h : used r.2 < alloc r.2
      · simp [trainGo, if_pos h, countLabel_cons, if_neg hc, ih, bumpUsed, if_neg hc']
      · simp [trainGo, if_neg h, countLabel_cons, if_neg hc, ih]

/-! ## Claim theorems -/

set_option maxRecDepth 40000 in
/-- C2: For the 150-row Iris dataset, the split with test_size=0.3 followed
by a split of the remainder with test_size=1/3 produces the expected row
counts: the training partition holds 70% of the rows (105), the validation
partition 20% (30), and the test partition 10% (15). -/
theorem c2_iris_split_row_counts :
    irisRows.length = 150 ∧
    (scriptSplit irisRows).1.length = 105 ∧
    (scriptSplit irisRows).2.1.length = 30 ∧
    (scriptSplit irisRows).2.2.length = 15 := by
  decide

/-- C3: The job-submission payload contains the parameter ranges (five
continuous ranges and one integer range, each with MinValue less than or
equal to MaxValue), the resource limits, the optimization objective, and the
static hyperparameters, submitted as one configuration object to the remote
create-job API. -/
theorem c3_payload_shape (training_image role : String) (buckets : List String) :
    (createJobCall training_image role
        buckets).HyperParameterTuningJobConfig.ParameterRanges.ContinuousParameterRanges.length = 5 ∧
    (createJobCall training_image role
        buckets).HyperParameterTuningJobConfig.ParameterRanges.IntegerParameterRanges.length = 1 ∧
    ((createJobCall training_image role
          buckets).HyperParameterTuningJobConfig.ParameterRanges.ContinuousParameterRanges ++
        (createJobCall training_image role
          buckets).HyperParameterTuningJobConfig.ParameterRanges.IntegerParameterRanges).all
      rangeOrdered = true ∧
    (createJobCall training_image role
        buckets).HyperParameterTuningJobConfig.ResourceLimits =
      { MaxNumberOfTrainingJobs := 9, MaxParallelTrainingJobs := 3 } ∧
    (createJobCall training_image role
        buckets).HyperParameterTuningJobConfig.HyperParameterTuningJobObjective =
      { MetricName := "validation:mlogloss", «Type» := "Minimize" } ∧
    (createJobCall training_image role
        buckets).TrainingJobDefinition.StaticHyperParameters =
      [("objective", "multi:softmax"), ("num_class", "3"),
        ("eval_metric", "mlogloss"), ("num_round", "100")] ∧
    (createJobCall training_image role buckets).HyperParameterTuningJobName =
      tuning_job_name := by
  refine ⟨rfl, rfl, ?_, rfl, rfl, rfl, rfl⟩
  show (tuning_job_config.ParameterRanges.ContinuousParameterRanges ++
      tuning_job_config.ParameterRanges.IntegerParameterRanges).all
    rangeOrdered = true
  decide

/-- C4: The job-configuration record built in the configuration cell is
passed verbatim to the remote service: the value bound to
`tuning_job_config` when it is constructed is, key for key and value for
value, the `HyperParameterTuningJobConfig` argument of the
`create_hyper_parameter_tuning_job` call, with no step between construction
and submission modifying it. -/
theorem c4_config_passed_verbatim (training_image role : String)
    (buckets : List String) :
    (createJobCall training_image role buckets).HyperParameterTuningJobConfig =
      tuning_job_config := rfl

/-- C5: The configuration submitted to the remote service limits parallelism
to at most 3 concurrent training jobs (ResourceLimits.MaxParallelTrainingJobs
equals 3), and the parallel limit does not exceed the total-jobs limit
(MaxNumberOfTrainingJobs equals 9). -/
theorem c5_resource_limits :
    tuning_job_config.ResourceLimits.MaxParallelTrainingJobs = 3 ∧
    tuning_job_config.ResourceLimits.MaxNumberOfTrainingJobs = 9 ∧
    tuning_job_config.ResourceLimits.MaxParallelTrainingJobs ≤
      tuning_job_config.ResourceLimits.MaxNumberOfTrainingJobs := by
  decide

/-- C6: In every execution of the script, the remote job-submission API is
invoked exactly once (a single call to `create_hyper_parameter_tuning_job`),
with no feedback loop or retry: the step sequence is linear, contains exactly
one create-job step, and ends with it. -/
theorem c6_single_submission :
    scriptSteps.count ScriptStep.createTuningJob = 1 ∧
    scriptSteps.getLast? = some ScriptStep.createTuningJob := by
  decide

/-- C9: The data split is deterministic: both `train_test_split` calls fix
`random_state=1729`, so the partitions produced by the split step do not
depend on the ambient RNG state, and any two runs on the same input dataset
produce identical training, validation, and test partitions. -/
theorem c9_split_deterministic (g1 g2 : ℕ) (rows : List RowT) :
    scriptSplitRun g1 rows = scriptSplitRun g2 rows := rfl

/-- C10: Each of the three CSV files written (train.csv, validation.csv,
test.csv) places the Species column first, followed by the remaining columns
in their original relative order (a sublist of the original column list), and
is written with no header row and no index column. -/
theorem c10_csv_layout (cols : List String) :
    (train_to_csv cols).columns.head? = some "Species" ∧
    (train_to_csv cols).columns.tail = cols.filter (fun c => c ≠ "Species") ∧
    List.Sublist ((train_to_csv cols).columns.tail) cols ∧
    (train_to_csv cols).header = false ∧
    (train_to_csv cols).index = false ∧
    (validation_to_csv cols).columns = (train_to_csv cols).columns ∧
    (validation_to_csv cols).header = false ∧
    (validation_to_csv cols).index = false ∧
    (test_to_csv cols).columns = (train_to_csv cols).columns ∧
    (test_to_csv cols).header = false ∧
    (test_to_csv cols).index = false :=
  ⟨rfl, rfl, List.filter_sublist cols, rfl, rfl, rfl, rfl, rfl, rfl, rfl, rfl⟩

/-- C1 (counterexample): on the 12-row dataset `unevenRows` (8 rows of one
species, 4 of another) the proportional shares are not integers, so no
partition of the two-stage split can reproduce the input's per-label
proportions exactly: the claim's stratification clause fails for the
training partition (5 of its 8 rows have label "a", against 8 of 12 in the
input). -/
theorem c1_exact_proportions_counterexample :
    ¬ (propsPreserved unevenRows (scriptSplit unevenRows).1 ∧
       propsPreserved unevenRows (scriptSplit unevenRows).2.1 ∧
       propsPreserved unevenRows (scriptSplit unevenRows).2.2) := by
  decide

/-- C1 (amended): for every input dataset with distinct rows, the two-stage
split produces training, validation, and test partitions that are pairwise
disjoint and whose union is the whole dataset, and that are stratified by the
Species label up to rounding: each partition receives, per label, the
computed proportional allocation (floored share plus at most one remainder
row, capped by the label's row count) rather than the exact input
proportions. -/
theorem c1_split_partition_stratified_rounded (rows : List RowT)
    (hnd : rows.Nodup) :
    ((scriptSplit rows).1 ++
        ((scriptSplit rows).2.1 ++ (scriptSplit rows).2.2)).Perm rows ∧
    List.Disjoint (scriptSplit rows).1 (scriptSplit rows).2.1 ∧
    List.Disjoint (scriptSplit rows).1 (scriptSplit rows).2.2 ∧
    List.Disjoint (scriptSplit rows).2.1 (scriptSplit rows).2.2 ∧
    stratCounts rows (scriptSplit rows).1 (ttsAlloc rows 3 10 1729) ∧
    stratCounts (train_test_split rows 3 10 1729).2 (scriptSplit rows).2.1
      (ttsAlloc (train_test_split rows 3 10 1729).2 1 3 1729) := by
  have h1 : ((train_test_split rows 3 10 1729).1 ++
      (train_test_split rows 3 10 1729).2).Perm rows :=
    trainGo_testGo_perm _ _ rows
  have h2 : ((train_test_split (train_test_split rows 3 10 1729).2 1 3 1729).1 ++
      (train_test_split (train_test_split rows 3 10 1729).2 1 3 1729).2).Perm
        (train_test_split rows 3 10 1729).2 :=
    trainGo_testGo_perm _ _ _
  have nd1 : ((train_test_split rows 3 10 1729).1 ++
      (train_test_split rows 3 10 1729).2).Nodup := h1.nodup_iff.mpr hnd
  obtain ⟨ndtr, ndrest, hdisj1⟩ := List.nodup_append.mp nd1
  have nd2 : ((train_test_split (train_test_split rows 3 10 1729).2 1 3 1729).1 ++
      (train_test_split (train_test_split rows 3 10 1729).2 1 3 1729).2).Nodup :=
    h2.nodup_iff.mpr ndrest
  obtain ⟨ndva, ndte, hdisj2⟩ := List.nodup_append.mp nd2
  have hsubva : (train_test_split (train_test_split rows 3 10 1729).2 1 3 1729).1 ⊆
      (train_test_split rows 3 10 1729).2 :=
    fun x hx => h2.subset (List.mem_append_left _ hx)
  have hsubte : (train_test_split (train_test_split rows 3 10 1729).2 1 3 1729).2 ⊆
      (train_test_split rows 3 10 1729).2 :=
    fun x hx => h2.subset (List.mem_append_right _ hx)
  refine ⟨(List.Perm.append_left _ h2).trans h1,
    fun x hx hv => hdisj1 hx (hsubva hv),
    fun x hx hv => hdisj1 hx (hsubte hv),
    hdisj2, ?_, ?_⟩
  · intro c _
    simpa using
      trainGo_count (ttsAlloc rows 3 10 1729) (fun _ => 0) rows c
  · intro c _
    simpa using
      trainGo_count (ttsAlloc (train_test_split rows 3 10 1729).2 1 3 1729)
        (fun _ => 0) (train_test_split rows 3 10 1729).2 c

/-- C1 (witness): the amended theorem evaluated on the concrete 12-row
dataset `unevenRows`. -/
theorem c1_split_witness :
    unevenRows.Nodup ∧
    (((scriptSplit unevenRows).1 ++
        ((scriptSplit unevenRows).2.1 ++ (scriptSplit unevenRows).2.2)).Perm
        unevenRows ∧
      List.Disjoint (scriptSplit unevenRows).1 (scriptSplit unevenRows).2.1 ∧
      List.Disjoint (scriptSplit unevenRows).1 (scriptSplit unevenRows).2.2 ∧
      List.Disjoint (scriptSplit unevenRows).2.1 (scriptSplit unevenRows).2.2 ∧
      stratCounts unevenRows (scriptSplit unevenRows).1
        (ttsAlloc unevenRows 3 10 1729) ∧
      stratCounts (train_test_split unevenRows 3 10 1729).2
        (scriptSplit unevenRows).2.1
        (ttsAlloc (train_test_split unevenRows 3 10 1729).2 1 3 1729)) :=
  ⟨by decide, c1_split_partition_stratified_rounded unevenRows (by decide)⟩

theorem except_bind_ok {α β : Type} (a : α) (f : α → Except String β) :
    (Except.ok a : Except String α).bind f = f a := rfl

theorem except_bind_error {α β : Type} (e : String) (f : α → Except String β) :
    (Except.error e : Except String α).bind f = Except.error e := rfl

/-- C7: For every operation in the script (role lookup, bucket listing, data
load, split, image retrieval, S3 uploads, job submission), if the underlying
library or network call raises an error, that error propagates to the caller
uncaught: no operation is wrapped in a handler, and no operation converts or
suppresses an error. -/
theorem c7_errors_propagate (env : ScriptEnv) (e : String) :
    (env.get_execution_role = Except.error e → runScript env = Except.error e) ∧
    (isOk env.get_execution_role → env.list_buckets = Except.error e →
      runScript env = Except.error e) ∧
    (isOk env.get_execution_role → isOk env.list_buckets →
      env.read_csv = Except.error e → runScript env = Except.error e) ∧
    (isOk env.get_execution_role → isOk env.list_buckets → isOk env.read_csv →
      env.split_step = Except.error e → runScript env = Except.error e) ∧
    (isOk env.get_execution_role → isOk env.list_buckets → isOk env.read_csv →
      isOk env.split_step → env.image_uris_retrieve = Except.error e →
      runScript env = Except.error e) ∧
    (isOk env.get_execution_role → isOk env.list_buckets → isOk env.read_csv →
      isOk env.split_step → isOk env.image_uris_retrieve →
      env.upload_train = Except.error e → runScript env = Except.error e) ∧
    (isOk env.get_execution_role → isOk env.list_buckets → isOk env.read_csv →
      isOk env.split_step → isOk env.image_uris_retrieve →
      isOk env.upload_train → env.upload_validation = Except.error e →
      runScript env = Except.error e) ∧
    (isOk env.get_execution_role → isOk env.list_buckets → isOk env.read_csv →
      isOk env.split_step → isOk env.image_uris_retrieve →
      isOk env.upload_train → isOk env.upload_validation →
      env.create_hyper_parameter_tuning_job = Except.error e →
      runScript env = Except.error e) := by
  refine ⟨?_, ?_, ?_, ?_, ?_, ?_, ?_, ?_⟩
  · intro h
    simp [runScript, h, except_bind_error]
  · rintro ⟨a1, h1⟩ h
    simp [runScript, h1, h, except_bind_ok, except_bind_error]
  · rintro ⟨a1, h1⟩ ⟨a2, h2⟩ h
    simp [runScript, h1, h2, h, except_bind_ok, except_bind_error]
  · rintro ⟨a1, h1⟩ ⟨a2, h2⟩ ⟨a3, h3⟩ h
    simp [runScript, h1, h2, h3, h, except_bind_ok, except_bind_error]
  · rintro ⟨a1, h1⟩ ⟨a2, h2⟩ ⟨a3, h3⟩ ⟨a4, h4⟩ h
    simp [runScript, h1, h2, h3, h4, h, except_bind_ok, except_bind_error]
  · rintro ⟨a1, h1⟩ ⟨a2, h2⟩ ⟨a3, h3⟩ ⟨a4, h4⟩ ⟨a5, h5⟩ h
    simp [runScript, h1, h2, h3, h4, h5, h, except_bind_ok, except_bind_error]
  · rintro ⟨a1, h1⟩ ⟨a2, h2⟩ ⟨a3, h3⟩ ⟨a4, h4⟩ ⟨a5, h5⟩ ⟨a6, h6⟩ h
    simp [runScript, h1, h2, h3, h4, h5, h6, h, except_bind_ok,
      except_bind_error]
  · rintro ⟨a1, h1⟩ ⟨a2, h2⟩ ⟨a3, h3⟩ ⟨a4, h4⟩ ⟨a5, h5⟩ ⟨a6, h6⟩ ⟨a7, h7⟩ h
    simp [runScript, h1, h2, h3, h4, h5, h6, h7, h, except_bind_ok,
      except_bind_error]

/-- C7 (witness): in the environment where the first upload raises
`AccessDenied` and every earlier call succeeds, the script run ends in that
very error. -/
theorem c7_errors_propagate_witness :
    runScript envUploadErr = Except.error "AccessDenied" :=
  (c7_errors_propagate envUploadErr "AccessDenied").2.2.2.2.2.1
    ⟨_, rfl⟩ ⟨_, rfl⟩ ⟨_, rfl⟩ ⟨_, rfl⟩ ⟨_, rfl⟩ rfl

theorem find?_first (p : String → Bool) (l : List String) (n : String)
    (h : l.find? p = some n) :
    ∃ l1 l2, l = l1 ++ n :: l2 ∧ ∀ b ∈ l1, p b = false := by
  induction l with
  | nil => simp [List.find?] at h
  | cons a t ih =>
    cases hp : p a with
    | true =>
      rw [List.find?_cons_of_pos t hp] at h
      obtain rfl : a = n := by simpa using h
      exact ⟨[], t, rfl, by simp⟩
    | false =>
      rw [List.find?_cons_of_neg t (by simp [hp])] at h
      obtain ⟨l1, l2, rfl, hall⟩ := ih h
      refine ⟨a :: l1, l2, rfl, ?_⟩
      intro b hb
      rcases List.mem_cons.mp hb with rfl | hb'
      · exact hp
      · exact hall b hb'

/-- C8: The bucket selection returns the name of the first bucket in the
list-buckets result whose name starts with "lab-notebook-"; if no bucket
matches, it returns None without raising, and the downstream S3 URIs are then
formed with the literal text "None" as the bucket name
(e.g. "s3://None/iris/train"). -/
theorem c8_bucket_selection (buckets_ : List String) :
    ((∀ b ∈ buckets_, isLabBucket b = false) →
      bucket buckets_ = none ∧
      s3_input_train buckets_ = "s3://None/iris/train") ∧
    (∀ n, bucket buckets_ = some n →
      isLabBucket n = true ∧
      ∃ l1 l2, buckets_ = l1 ++ n :: l2 ∧ ∀ b ∈ l1, isLabBucket b = false) := by
  constructor
  · intro hall
    have hn : bucket buckets_ = none :=
      List.find?_eq_none.mpr (fun x hx => by simp [hall x hx])
    refine ⟨hn, ?_⟩
    simp [s3_input_train, hn, strFormatArg, train_s3_key]
  · intro n hfind
    exact ⟨List.find?_some hfind, find?_first isLabBucket buckets_ n hfind⟩

/-- C8 (witness): a list with no matching bucket yields `none` and the
literal `s3://None/iris/train` URI; a list with two matching buckets yields
the first of them. -/
theorem c8_bucket_selection_witness :
    bucket ["alpha"] = none ∧
    s3_input_train ["alpha"] = "s3://None/iris/train" ∧
    bucket ["alpha", "lab-notebook-1", "lab-notebook-2"] =
      some "lab-notebook-1" ∧
    isLabBucket "lab-notebook-1" = true := by
  have h1 := (c8_bucket_selection ["alpha"]).1 (by decide)
  have h2 := (c8_bucket_selection ["alpha", "lab-notebook-1", "lab-notebook-2"]).2
    "lab-notebook-1" (by decide)
  exact ⟨h1.1, h1.2, by decide, h2.1⟩
